import Mathlib

/-!
Verification of the video_downloader repository (src/video_download.py and
src/youtube.py) against its natural-language specification.

The embedding models the pure logic of the two Python modules.  External
library calls (yt-dlp, whisper, ffmpeg, the filesystem) are modelled as an
oracle environment recording the outcome of each call; UI event emissions
(`window.write_event_value`) are modelled as a trace of `Event` values.
-/

/-- A UI event posted from the worker thread back to the UI event loop via
`window.write_event_value`. -/
inductive Event where
  | message (s : String)
  | progress (v : ℚ)
  | downloadComplete
  deriving DecidableEq, Repr

/-- The characters removed by `sanitize_filename`, i.e. those matched by the
regex character class in `re.sub` (backslash, slash, star, question mark,
colon, double quote, angle brackets, pipe). -/
def forbiddenChar (c : Char) : Bool :=
  c = '\\' || c = '/' || c = '*' || c = '?' || c = ':' || c = '"' ||
  c = '<' || c = '>' || c = '|'

/-- Function `sanitize_filename` (identical in video_download.py lines 83-84
and youtube.py lines 10-11): `re.sub` with an empty replacement deletes every
character of the class and keeps all others. -/
def sanitize_filename (s : String) : String :=
  String.mk (s.data.filter (fun c => !forbiddenChar c))

/-- Python truthiness-based `or` on optional byte counts:
`d.get(k1) or d.get(k2)` yields the first operand unless it is `None` or `0`. -/
def pyOrNat : Option Nat → Option Nat → Option Nat
  | some n, b => if n = 0 then b else some n
  | none,   b => b

/-- The progress dictionary passed by yt-dlp to the progress hook.  Byte
counts may be absent. -/
structure PDict where
  status : String
  total_bytes : Option Nat
  total_bytes_estimate : Option Nat
  downloaded_bytes : Option Nat
  deriving DecidableEq, Repr

/-- Function `progress_hook` (identical in video_download.py lines 86-94 and
youtube.py lines 13-21), returning the list of events it posts.  On
status `downloading` it computes `total_bytes or total_bytes_estimate`
(Python `or`), defaults `downloaded_bytes` to 0, and only emits a
percentage when the resulting total is truthy (present and non-zero);
on status `finished` it emits 100. -/
def progress_hook (d : PDict) : List Event :=
  if d.status = "downloading" then
    match pyOrNat d.total_bytes d.total_bytes_estimate with
    | some t =>
        if t ≠ 0 then
          [Event.progress ((d.downloaded_bytes.getD 0 : ℚ) / (t : ℚ) * 100)]
        else []
    | none => []
  else if d.status = "finished" then
    [Event.progress 100]
  else []

/-- Persisted configuration (video_download.py `DEFAULT_CONFIG`, lines
34-40).  `temp_directory` is nullable. -/
structure Config where
  default_output_path : String
  default_resolution : String
  default_model : String
  temp_directory : Option String
  keep_temp_files : Bool
  deriving DecidableEq, Repr

/-- Constant `DEFAULT_CONFIG` from video_download.py lines 34-40. -/
def DEFAULT_CONFIG : Config :=
  { default_output_path := "downloads"
    default_resolution := "720"
    default_model := "turbo"
    temp_directory := none
    keep_temp_files := false }

/-- Function `load_config` (video_download.py lines 42-48) together with the write it
performs through `save_config`.  The config file's parsed contents are
modelled as `Option Config` (`none` when the file is absent); the result is
the returned config paired with the file contents after the call.  When the
file is absent, the defaults are saved and returned. -/
def load_config (file : Option Config) : Config × Option Config :=
  match file with
  | some c => (c, some c)
  | none => (DEFAULT_CONFIG, some DEFAULT_CONFIG)

/-- Index of the last occurrence of `c` in `l`, if any. -/
def lastIdxOf (c : Char) : List Char → Option Nat
  | [] => none
  | x :: xs =>
    match lastIdxOf c xs with
    | some i => some (i + 1)
    | none => if x = c then some 0 else none

/-- Model of the Python stdlib `os.path.splitext(p)[0]` (posix rules): the
extension starts at the last dot strictly after the last separator, provided
some earlier character of the basename is not a dot; otherwise the path is
returned whole. -/
def splitext0 (p : String) : String :=
  let l := p.data
  let sepIdx : Int := match lastIdxOf '/' l with | some i => (i : Int) | none => -1
  let dotIdx : Int := match lastIdxOf '.' l with | some i => (i : Int) | none => -1
  if dotIdx > sepIdx then
    let lo := (sepIdx + 1).toNat
    let hi := dotIdx.toNat
    if (List.range (hi - lo)).any (fun k => !(l.get? (lo + k) == some '.')) then
      String.mk (l.take hi)
    else p
  else p

/-- Substring test on character lists: `needle` occurs contiguously in
`hay`.  Models Python's `needle in hay` on strings. -/
def listContainsSub (needle : List Char) : List Char → Bool
  | [] => needle.isEmpty
  | c :: rest => needle.isPrefixOf (c :: rest) || listContainsSub needle rest

/-- Python's `sub in s` substring containment on strings. -/
def strContains (hay needle : String) : Bool :=
  listContainsSub needle.data hay.data

/-- Model of Python stdlib `os.path.basename` (posix): the part after the
last slash. -/
def pathBasename (p : String) : String :=
  match lastIdxOf '/' p.data with
  | some i => String.mk (p.data.drop (i + 1))
  | none => p

namespace VD

/-- A remote-download queue item (video_download.py: the dict built at lines
400-408).  `filename` is the raw optional filename field; the empty string is
Python-falsy, meaning "not provided". -/
structure DlItem where
  url : String
  output_path : String
  resolution : String
  audio_only : Bool
  filename : String
  transcribe : Bool
  model_choice : String
  deriving DecidableEq, Repr

/-- Oracle for the external calls made by `download_video`
(video_download.py lines 103-188): outcome of `os.makedirs`, of
`whisper.load_model`, of the yt-dlp extract/download block (returning the
video title and the `prepare_filename` result on success, the exception
message on failure), the state of the abort flag at its single check point,
and the outcome of the transcribe-and-write-transcript block. -/
structure VEnv where
  makedirs : Except String Unit
  whisperLoad : Except String Unit
  download : Except String (String × String)
  abortSet : Bool
  transcribeRes : Except String String
  deriving Repr

/-- Observable outcome of one `download_video` task: the posted events,
whether `whisper_model.transcribe` was invoked, and the transcript path
written (if any). -/
structure VDResult where
  events : List Event
  transcribeCalled : Bool
  transcriptWritten : Option String
  deriving DecidableEq, Repr

/-- Continuation of `download_video` after the whisper-model-loading stage
(video_download.py lines 119-188): the yt-dlp block, the abort check, the
transcription step and the final messages; a raised exception from the
yt-dlp block is caught by the outer handler (lines 183-186) and the
`finally` (lines 187-188) always posts `-DOWNLOAD-COMPLETE-`. -/
def afterLoad (item : DlItem) (env : VEnv) (evs0 : List Event)
    (whisperLoaded : Bool) : VDResult :=
  match env.download with
  | .error e =>
      { events := evs0 ++ [Event.message ("An error occurred: " ++ e),
                           Event.downloadComplete]
        transcribeCalled := false, transcriptWritten := none }
  | .ok (title, prepared) =>
    let evs1 := evs0 ++ [Event.message ("Downloading: " ++ title)]
    let downloaded_file :=
      if item.audio_only then splitext0 prepared ++ ".mp3" else prepared
    if env.abortSet then
      { events := evs1 ++ [Event.message "Download aborted.",
                           Event.downloadComplete]
        transcribeCalled := false, transcriptWritten := none }
    else
      let r :=
        if item.audio_only && item.transcribe && whisperLoaded
            && !(downloaded_file == "") then
          match env.transcribeRes with
          | .ok _text =>
            let tpath := splitext0 downloaded_file ++ "_transcript.txt"
            (evs1 ++ [Event.message "Starting transcription...",
                      Event.message ("Transcription saved to: " ++ tpath)],
             true, some tpath)
          | .error e =>
            (evs1 ++ [Event.message "Starting transcription...",
                      Event.message ("Transcription error: " ++ e)],
             true, (none : Option String))
        else (evs1, false, (none : Option String))
      { events := r.1 ++
          [Event.message ("Download complete! File saved to: " ++ item.output_path),
           Event.progress 100, Event.downloadComplete]
        transcribeCalled := r.2.1, transcriptWritten := r.2.2 }

/-- Function `download_video` from video_download.py lines 103-188.  The whole body
sits in a `try` whose handler posts the error as a `-MESSAGE-` event; the
whisper-load and transcription steps have their own inner handlers; the
`finally` always posts `-DOWNLOAD-COMPLETE-`.  No exception escapes. -/
def download_video (item : DlItem) (env : VEnv) : VDResult :=
  match env.makedirs with
  | .error e =>
      { events := [Event.message ("An error occurred: " ++ e),
                   Event.downloadComplete]
        transcribeCalled := false, transcriptWritten := none }
  | .ok _ =>
    if item.audio_only && item.transcribe then
      match env.whisperLoad with
      | .error e =>
          { events := [Event.message ("Loading Whisper model: " ++ item.model_choice),
                       Event.message ("Error loading Whisper model: " ++ e),
                       Event.downloadComplete]
            transcribeCalled := false, transcriptWritten := none }
      | .ok _ =>
          afterLoad item env
            [Event.message ("Loading Whisper model: " ++ item.model_choice),
             Event.message "Whisper model loaded successfully"] true
    else
      afterLoad item env [] false

/-- Oracle for `process_local_transcription_file`: the `convert_to_mp3`
result (it catches its own failures and returns a boolean), the
`whisper.load_model` outcome and the transcribe-and-write outcome. -/
structure LEnv where
  convertOk : Bool
  whisperLoad : Except String Unit
  transcribeRes : Except String String
  deriving Repr

/-- Function `process_local_transcription_file` from video_download.py lines
315-348.  Every fallible step is individually guarded in the source, so the
function always returns its event trace. -/
def process_local_transcription_file (path model_choice : String)
    (env : LEnv) : List Event :=
  let evs0 := [Event.message ("Processing transcription for: " ++ path),
               Event.progress 0]
  let needsConvert := !(String.map Char.toLower path).endsWith ".mp3"
  if needsConvert && !env.convertOk then
    evs0 ++ [Event.message ("Converting to MP3: " ++ path),
             Event.message ("Conversion failed for " ++ path), Event.progress 0]
  else
    let (evs1, file_path) :=
      if needsConvert then
        (evs0 ++ [Event.message ("Converting to MP3: " ++ path)],
         splitext0 path ++ "_converted.mp3")
      else (evs0, path)
    match env.whisperLoad with
    | .error e =>
        evs1 ++ [Event.message ("Loading Whisper model: " ++ model_choice),
                 Event.progress 20,
                 Event.message ("Error loading model: " ++ e), Event.progress 0]
    | .ok _ =>
        let evs2 := evs1 ++ [Event.message ("Loading Whisper model: " ++ model_choice),
                             Event.progress 20,
                             Event.message "Whisper model loaded successfully"]
        match env.transcribeRes with
        | .ok _text =>
            let tpath := splitext0 file_path ++ "_transcript.txt"
            evs2 ++ [Event.message ("Starting transcription for: " ++ file_path),
                     Event.progress 50,
                     Event.message ("Transcription saved: " ++ tpath),
                     Event.progress 100]
        | .error e =>
            evs2 ++ [Event.message ("Starting transcription for: " ++ file_path),
                     Event.progress 50,
                     Event.message ("Transcription error: " ++ e), Event.progress 0]

/-- One queue entry as dispatched by the worker (video_download.py lines
355-368: a dict with a `local_file` key goes to transcription, anything
else to `download_video`), carrying its oracle. -/
inductive WTask where
  | dl (item : DlItem) (env : VEnv)
  | localFile (path model_choice : String) (env : LEnv)
  deriving Repr

/-- The events posted while the worker processes one queue entry. -/
def taskEvents : WTask → List Event
  | .dl item env => (download_video item env).events
  | .localFile p m env => process_local_transcription_file p m env

/-- Function `process_download_queue` from video_download.py lines 350-369: the
worker loop takes queue entries in order until the `None` terminator
(modelled by the end of the list) and processes each one.  The loop body
itself never consults the abort flag; the only abort check sits inside
`download_video`. -/
def process_download_queue : List WTask → List Event
  | [] => []
  | t :: rest => taskEvents t ++ process_download_queue rest

end VD

namespace YT

/-- A Python exception as seen by youtube.py's handlers: either a yt-dlp
`DownloadError` (caught by the first `except` clause) or any other
exception (caught by the second); `str(e)` is the carried message. -/
inductive PyErr where
  | downloadError (msg : String)
  | otherError (msg : String)
  deriving DecidableEq, Repr

/-- The Python `str(e)` of a modelled exception. -/
def PyErr.str : PyErr → String
  | .downloadError m => m
  | .otherError m => m

/-- A queue item of youtube.py (the dict built at lines 135-142). -/
structure YItem where
  url : String
  output_path : String
  resolution : String
  audio_only : Bool
  filename : String
  subtitles : Bool
  deriving DecidableEq, Repr

/-- The option dictionary `ydl_opts` of youtube.py `download_video` (lines 29-45),
restricted to the keys the function reads or writes.  Optional fields model
key absence. -/
structure YdlOpts where
  format : String
  outtmpl : String
  writesubtitles : Option Bool
  subtitleslangs : Option (List String)
  subtitlesformat : Option String
  skip_download : Option Bool
  deriving DecidableEq, Repr

/-- Construction of `ydl_opts` in youtube.py lines 28-45: the format string
from resolution/audio-only, the output template (optionally overridden with
the sanitized custom filename; `os.path.flatten` modelled as slash
concatenation), and the subtitle keys added only when subtitles are
requested for a non-audio-only download. -/
def buildOpts (item : YItem) : YdlOpts :=
  let format_option :=
    if item.audio_only then "bestaudio/best"
    else "bestvideo[height<=" ++ item.resolution ++ "]+bestaudio/best"
  let base : YdlOpts :=
    { format := format_option
      outtmpl := item.output_path ++ "/%(title)s.%(ext)s"
      writesubtitles := none
      subtitleslangs := none
      subtitlesformat := none
      skip_download := none }
  let withSubs :=
    if item.subtitles && !item.audio_only then
      { base with writesubtitles := some true
                  subtitleslangs := some ["en"]
                  subtitlesformat := some "srt"
                  skip_download := some false }
    else base
  if !(item.filename == "") then
    { withSubs with
        outtmpl := item.output_path ++ "/" ++ sanitize_filename item.filename ++ ".%(ext)s" }
  else withSubs

/-- The retry in the `except DownloadError` handler (youtube.py lines
62-64) pops the three subtitle keys from `ydl_opts` before downloading
again. -/
def stripSubtitleOpts (o : YdlOpts) : YdlOpts :=
  { o with writesubtitles := none, subtitleslangs := none, subtitlesformat := none }

/-- Oracle for the external calls of youtube.py `download_video`: outcome of
`os.makedirs`, of `ydl.extract_info(url, download=False)` (the title on
success), of the first `ydl.download`, the abort flag at the check after the
first download, the outcome of the retry `ydl.download` (consulted only when
the retry runs), and the abort flag at the check after the retry. -/
structure YEnv where
  makedirs : Except PyErr Unit
  extract : Except PyErr String
  firstDownload : Except PyErr Unit
  abortAfterFirst : Bool
  retryDownload : Except PyErr Unit
  abortAfterRetry : Bool
  deriving Repr

/-- Observable outcome of one youtube.py `download_video` call: the events
posted, how many times the in-handler retry download ran, the stripped
option dictionary the retry used (if it ran), and the exception escaping
the function, if any.  The `finally` (lines 78-79) posts
`-DOWNLOAD-COMPLETE-` even when an exception escapes. -/
structure YResult where
  events : List Event
  retryCount : Nat
  retryOpts : Option YdlOpts
  propagated : Option PyErr
  deriving DecidableEq, Repr

/-- The `except DownloadError` handler of youtube.py lines 58-73 plus the
generic handler of lines 74-77, applied to the exception `e` raised by the
`try` body after events `evs` were already posted.  When the message of a
`DownloadError` contains "subtitle", the download is retried once with the
subtitle options stripped; that retry call is *inside* the handler, so a
failure there escapes `download_video` (only the `finally` runs). -/
def handleErr (item : YItem) (env : YEnv) (opts : YdlOpts) (evs : List Event)
    (e : PyErr) : YResult :=
  match e with
  | .downloadError msg =>
    if strContains msg "subtitle" then
      let evs1 := evs ++ [Event.message ("Subtitles not available for " ++ item.url ++
                            ". Downloading video without subtitles.")]
      let opts1 := stripSubtitleOpts opts
      match env.retryDownload with
      | .error e2 =>
          { events := evs1 ++ [Event.downloadComplete]
            retryCount := 1, retryOpts := some opts1, propagated := some e2 }
      | .ok _ =>
          if env.abortAfterRetry then
            { events := evs1 ++ [Event.message "Download aborted.", Event.downloadComplete]
              retryCount := 1, retryOpts := some opts1, propagated := none }
          else
            { events := evs1 ++ [Event.downloadComplete]
              retryCount := 1, retryOpts := some opts1, propagated := none }
    else
      { events := evs ++ [Event.message ("Download error: " ++ msg), Event.downloadComplete]
        retryCount := 0, retryOpts := none, propagated := none }
  | .otherError msg =>
      { events := evs ++ [Event.message ("An unexpected error occurred: " ++ msg),
                          Event.downloadComplete]
        retryCount := 0, retryOpts := none, propagated := none }

/-- Function `download_video` from youtube.py lines 23-79: build the options, fetch
the video info, download, check the abort flag, and post the completion
messages; exceptions from the `try` body go to `handleErr`. -/
def download_video (item : YItem) (env : YEnv) : YResult :=
  let opts := buildOpts item
  match env.makedirs with
  | .error e => handleErr item env opts [] e
  | .ok _ =>
    match env.extract with
    | .error e => handleErr item env opts [] e
    | .ok title =>
      let evs1 := [Event.message ("Downloading: " ++ title)]
      match env.firstDownload with
      | .error e => handleErr item env opts evs1 e
      | .ok _ =>
        if env.abortAfterFirst then
          { events := evs1 ++ [Event.message "Download aborted.", Event.downloadComplete]
            retryCount := 0, retryOpts := none, propagated := none }
        else
          { events := evs1 ++
              [Event.message ("Download complete! Video saved to: " ++ item.output_path),
               Event.progress 100, Event.downloadComplete]
            retryCount := 0, retryOpts := none, propagated := none }

/-- Function `process_download_queue` from youtube.py lines 97-112: the worker loop
takes items until the `None` terminator.  An exception escaping
`download_video` propagates through the loop body and terminates the worker
thread, leaving the remaining items unprocessed.  Returns the events posted,
the number of items actually processed, and the escaped exception, if any. -/
def process_download_queue : List (YItem × YEnv) → List Event × Nat × Option PyErr
  | [] => ([], 0, none)
  | (i, e) :: rest =>
    let r := download_video i e
    match r.propagated with
    | some err => (r.events, 1, some err)
    | none =>
      let (evs, n, p) := process_download_queue rest
      (r.events ++ evs, n + 1, p)

end YT

namespace UI

/-- The form values read from the window (video_download.py `values[...]`). -/
structure Values where
  url : String
  output : String
  resolution : String
  audio : Bool
  filenameField : String
  transcribeBox : Bool
  model : String
  deriving DecidableEq, Repr

/-- An entry of the internal pending list `queue_list` (video_download.py
main): either the remote-download dict of lines 400-408 or the local-file
dict of lines 427-430. -/
inductive QueueItem where
  | remote (url output_path resolution : String) (audio_only : Bool)
      (filename : String) (transcribeFlag : Bool) (model_choice : String)
  | localFile (path model_choice : String)
  deriving DecidableEq, Repr

/-- The listbox label of a queue entry (video_download.py lines 410 and
432): `item.get('url', "Transcribe: " + basename(item['local_file']))`. -/
def displayItem : QueueItem → String
  | .remote url _ _ _ _ _ _ => url
  | .localFile path _ => "Transcribe: " ++ pathBasename path

/-- State touched by the UI event loop of video_download.py `main` (lines
382-481): the form values, the internal pending list `queue_list`, the
visible queue listbox contents, the log pane lines, the progress bar, the
abort flag, the items handed to the worker queue, and the transcribe
checkbox's disabled state. -/
structure UIState where
  values : Values
  queue_list : List QueueItem
  queueBox : List String
  log : List String
  progressBar : ℚ
  abortSet : Bool
  sentToWorker : List QueueItem
  transcribeDisabled : Bool
  deriving DecidableEq, Repr

/-- The window events dispatched by the `main` loop of video_download.py. -/
inductive UIEvent where
  | addQueue
  | addLocal (files : List String)
  | clearQueue
  | startDownloads
  | abortBtn
  | progressEvt (v : ℚ)
  | messageEvt (s : String)
  | downloadCompleteEvt
  | audioToggle
  deriving DecidableEq, Repr

/-- The remote-download queue dict built from the current form values
(video_download.py lines 400-408 and 450-458). -/
def mkQueueItem (v : Values) : QueueItem :=
  .remote v.url v.output v.resolution v.audio v.filenameField v.transcribeBox v.model

/-- One iteration of the `main` event loop of video_download.py (lines
397-481), handling a single window event. -/
def handle_event (s : UIState) : UIEvent → UIState
  | .addQueue =>
    if !(s.values.url == "") then
      let ql := s.queue_list ++ [mkQueueItem s.values]
      { s with queue_list := ql
               queueBox := ql.map displayItem
               values := { s.values with url := "" }
               log := s.log ++ ["Added to queue: " ++ s.values.url] }
    else s
  | .addLocal files =>
    files.foldl (fun st f =>
      if !(f == "") then
        let ql := st.queue_list ++ [QueueItem.localFile f st.values.model]
        { st with queue_list := ql
                  queueBox := ql.map displayItem
                  log := st.log ++ ["Queued for transcription: " ++ f] }
      else st) s
  | .clearQueue =>
      { s with queue_list := [], queueBox := [],
               log := s.log ++ ["Queue cleared."] }
  | .startDownloads =>
    if !s.queue_list.isEmpty then
      { s with sentToWorker := s.sentToWorker ++ s.queue_list
               log := s.log ++
                 ["Started processing " ++ toString s.queue_list.length ++ " items."]
               queue_list := []
               queueBox := [] }
    else if !(s.values.url == "") then
      { s with sentToWorker := s.sentToWorker ++ [mkQueueItem s.values]
               log := s.log ++ ["Started processing: " ++ s.values.url] }
    else s
  | .abortBtn =>
      { s with abortSet := true, log := s.log ++ ["Aborting downloads..."] }
  | .progressEvt v => { s with progressBar := v }
  | .messageEvt m => { s with log := s.log ++ [m] }
  | .downloadCompleteEvt => { s with progressBar := 0 }
  | .audioToggle =>
    let s1 := { s with transcribeDisabled := !s.values.audio }
    if !s.values.audio then
      { s1 with values := { s1.values with transcribeBox := false } }
    else s1

end UI

/-! Concrete items and oracle outcomes used to evaluate the embedding on
specific runs. -/

/-- A plain video download item (video_download.py flavour). -/
def exItem1 : VD.DlItem :=
  { url := "u1", output_path := "out", resolution := "720", audio_only := false
    filename := "", transcribe := false, model_choice := "turbo" }

/-- A second plain video download item. -/
def exItem2 : VD.DlItem :=
  { url := "u2", output_path := "out", resolution := "720", audio_only := false
    filename := "", transcribe := false, model_choice := "turbo" }

/-- Oracle run for `exItem1`: every call succeeds, but the abort flag is set
by the time `download_video` checks it. -/
def exEnv1 : VD.VEnv :=
  { makedirs := .ok (), whisperLoad := .ok ()
    download := .ok ("T1", "out/T1.mp4"), abortSet := true
    transcribeRes := .ok "text" }

/-- Oracle run for `exItem2`: same shape as `exEnv1`, distinct title. -/
def exEnv2 : VD.VEnv :=
  { makedirs := .ok (), whisperLoad := .ok ()
    download := .ok ("T2", "out/T2.mp4"), abortSet := true
    transcribeRes := .ok "text" }

/-- A youtube.py download item with subtitles requested. -/
def yItemSubs : YT.YItem :=
  { url := "u1", output_path := "out", resolution := "720"
    audio_only := false, filename := "", subtitles := true }

/-- A second youtube.py item whose oracle run succeeds entirely. -/
def yItem2 : YT.YItem :=
  { url := "u2", output_path := "out", resolution := "720"
    audio_only := false, filename := "", subtitles := false }

/-- Oracle run where the first download raises a `DownloadError` mentioning
subtitles and the retry download raises again. -/
def yEnvRetryFail : YT.YEnv :=
  { makedirs := .ok (), extract := .ok "T1"
    firstDownload := .error (.downloadError "no subtitle found for requested language")
    abortAfterFirst := false
    retryDownload := .error (.downloadError "network unreachable")
    abortAfterRetry := false }

/-- Oracle run where everything succeeds and the abort flag stays clear. -/
def yEnvOk : YT.YEnv :=
  { makedirs := .ok (), extract := .ok "T2"
    firstDownload := .ok (), abortAfterFirst := false
    retryDownload := .ok (), abortAfterRetry := false }

/-- Oracle run where the first download raises a non-`DownloadError`
exception whose message nevertheless mentions subtitles. -/
def yEnvOtherSubtitleErr : YT.YEnv :=
  { makedirs := .ok (), extract := .ok "T1"
    firstDownload := .error (.otherError "ValueError: subtitle track missing")
    abortAfterFirst := false
    retryDownload := .ok (), abortAfterRetry := false }

/-- Oracle run where the first download raises a `DownloadError` mentioning
subtitles and the retry succeeds. -/
def yEnvSubErr : YT.YEnv :=
  { makedirs := .ok (), extract := .ok "T1"
    firstDownload := .error (.downloadError "requested subtitle not available")
    abortAfterFirst := false
    retryDownload := .ok (), abortAfterRetry := false }

/-! Theorems. -/

/-- C5: for every input string, `sanitize_filename` returns the input with
every occurrence of the forbidden filesystem characters removed and all
other characters unchanged and in their original order: no forbidden
character survives, the output is a subsequence of the input (order
preserved), and every non-forbidden character keeps its number of
occurrences. -/
theorem C5_sanitize_removes_forbidden (s : String) :
    (∀ c ∈ (sanitize_filename s).data, forbiddenChar c = false)
  ∧ (sanitize_filename s).data.Sublist s.data
  ∧ (∀ c : Char, forbiddenChar c = false →
      (sanitize_filename s).data.count c = s.data.count c) := by
  refine ⟨?_, ?_, ?_⟩
  · intro c hc
    rw [show (sanitize_filename s).data
          = s.data.filter (fun c => !forbiddenChar c) from rfl] at hc
    have h := List.of_mem_filter hc
    simpa using h
  · exact List.filter_sublist s.data
  · intro c hc
    rw [show (sanitize_filename s).data
          = s.data.filter (fun c => !forbiddenChar c) from rfl]
    rw [List.count_filter]
    simp [hc]

/-- Witness for C5 at a concrete input. -/
theorem C5_witness :
    forbiddenChar 'b' = false
  ∧ (sanitize_filename "a/b*c").data.count 'b' = "a/b*c".data.count 'b' :=
  ⟨by decide, (C5_sanitize_removes_forbidden "a/b*c").2.2 'b' (by decide)⟩

/-- C10: `sanitize_filename` is idempotent. -/
theorem C10_sanitize_idempotent (s : String) :
    sanitize_filename (sanitize_filename s) = sanitize_filename s := by
  unfold sanitize_filename
  rw [show (String.mk (s.data.filter fun c => !forbiddenChar c)).data
        = s.data.filter (fun c => !forbiddenChar c) from rfl]
  rw [List.filter_filter]
  simp

/-- C6: every progress dictionary with status `finished` makes the hook
emit a single progress event with value exactly 100. -/
theorem C6_finished_emits_100 (d : PDict) (h : d.status = "finished") :
    progress_hook d = [Event.progress 100] := by
  unfold progress_hook
  rw [h]
  rw [if_neg (by decide), if_pos rfl]

/-- Witness for C6 at a concrete progress dictionary. -/
theorem C6_witness :
    progress_hook { status := "finished", total_bytes := none,
                    total_bytes_estimate := none, downloaded_bytes := none }
      = [Event.progress 100] :=
  C6_finished_emits_100 _ rfl

/-- C7: on status `downloading` with a known non-zero total (`total_bytes`,
else `total_bytes_estimate`), the hook emits downloaded/total*100 with
`downloaded_bytes` defaulting to 0; with no non-zero total available it
emits nothing, so the division never happens with a zero or missing
total. -/
theorem C7_downloading_progress (d : PDict) (h : d.status = "downloading") :
    (∀ t : Nat, pyOrNat d.total_bytes d.total_bytes_estimate = some t → t ≠ 0 →
        progress_hook d
          = [Event.progress ((d.downloaded_bytes.getD 0 : ℚ) / (t : ℚ) * 100)])
  ∧ ((pyOrNat d.total_bytes d.total_bytes_estimate = none ∨
      pyOrNat d.total_bytes d.total_bytes_estimate = some 0) →
        progress_hook d = []) := by
  constructor
  · intro t ht hz
    simp [progress_hook, h, ht, hz]
  · intro hcase
    rcases hcase with h0 | h0 <;> simp [progress_hook, h, h0]

/-- Witness for C7 at a concrete progress dictionary. -/
theorem C7_witness :
    progress_hook { status := "downloading", total_bytes := some 200,
                    total_bytes_estimate := none, downloaded_bytes := some 50 }
      = [Event.progress ((50 : ℚ) / (200 : ℚ) * 100)] :=
  (C7_downloading_progress _ rfl).1 200 (by rfl) (by decide)

/-- C8: handling the clear-queue event empties the internal pending list
and the visible queue listbox in the same event-handling step. -/
theorem C8_clear_queue_empties_both (s : UI.UIState) :
    (UI.handle_event s UI.UIEvent.clearQueue).queue_list = []
  ∧ (UI.handle_event s UI.UIEvent.clearQueue).queueBox = [] :=
  ⟨rfl, rfl⟩

/-- C9: loading the configuration returns the persisted settings when the
config file exists; when it is absent it returns and persists the
enumerated defaults (output path "downloads", resolution "720", model
"turbo", temp directory unset, keep-temp-files false). -/
theorem C9_load_config_defaults :
    (∀ c : Config, load_config (some c) = (c, some c))
  ∧ load_config none = (DEFAULT_CONFIG, some DEFAULT_CONFIG)
  ∧ DEFAULT_CONFIG.default_output_path = "downloads"
  ∧ DEFAULT_CONFIG.default_resolution = "720"
  ∧ DEFAULT_CONFIG.default_model = "turbo"
  ∧ DEFAULT_CONFIG.temp_directory = none
  ∧ DEFAULT_CONFIG.keep_temp_files = false :=
  ⟨fun _ => rfl, rfl, rfl, rfl, rfl, rfl, rfl⟩

/-- Helper: with the abort flag set, the post-download stage of
video_download.py `download_video` never reaches the transcription call. -/
theorem afterLoad_abort_no_transcribe (item : VD.DlItem) (env : VD.VEnv)
    (evs0 : List Event) (wl : Bool) (h : env.abortSet = true) :
    (VD.afterLoad item env evs0 wl).transcribeCalled = false := by
  unfold VD.afterLoad
  split
  · rfl
  · simp [h]

/-- Helper: with the abort flag set, a video_download.py download task never
calls transcription, on any oracle outcome. -/
theorem download_video_abort_no_transcribe (item : VD.DlItem) (env : VD.VEnv)
    (h : env.abortSet = true) :
    (VD.download_video item env).transcribeCalled = false := by
  unfold VD.download_video
  split
  · rfl
  · split
    · split
      · rfl
      · exact afterLoad_abort_no_transcribe _ _ _ _ h
    · exact afterLoad_abort_no_transcribe _ _ _ _ h

/-- Helper: the video_download.py worker loop processes every queued task in
order and concatenates their event traces. -/
theorem process_queue_processes_all (tasks : List VD.WTask) :
    VD.process_download_queue tasks = (tasks.map VD.taskEvents).flatten := by
  induction tasks with
  | nil => rfl
  | cons t rest ih => simp [VD.process_download_queue, ih]

/-- C2 counterexample: with the abort flag set throughout the run (both
tasks observe it set), the worker still takes and processes the second
queue item — its download runs and posts its title message — because the
worker loop contains no abort check between queue items. -/
theorem C2_counterexample :
    exEnv1.abortSet = true ∧ exEnv2.abortSet = true ∧
    Event.message "Downloading: T2" ∈
      VD.process_download_queue
        [VD.WTask.dl exItem1 exEnv1, VD.WTask.dl exItem2 exEnv2] := by
  refine ⟨rfl, rfl, ?_⟩
  decide

/-- C2 amended: setting the abort flag does not stop the worker loop from
taking the remaining queue items — every remaining item is still processed
and contributes its event trace — because the flag is checked only inside
each download task after its download call; there it stops the task before
post-processing, so no task run with the flag set calls transcription. -/
theorem C2_amended_abort_does_not_stop_queue
    (tasks : List (VD.DlItem × VD.VEnv))
    (h : ∀ p ∈ tasks, (p.2).abortSet = true) :
    VD.process_download_queue (tasks.map fun p => VD.WTask.dl p.1 p.2)
      = (tasks.map fun p => (VD.download_video p.1 p.2).events).flatten
  ∧ ∀ p ∈ tasks, (VD.download_video p.1 p.2).transcribeCalled = false := by
  constructor
  · rw [process_queue_processes_all, List.map_map]
    rfl
  · intro p hp
    exact download_video_abort_no_transcribe p.1 p.2 (h p hp)

/-- Witness for C2's amended statement on a concrete one-task queue. -/
theorem C2_witness :
    (VD.process_download_queue
        ([(exItem1, exEnv1)].map fun p => VD.WTask.dl p.1 p.2)
      = ([(exItem1, exEnv1)].map fun p => (VD.download_video p.1 p.2).events).flatten)
  ∧ ∀ p ∈ [(exItem1, exEnv1)], (VD.download_video p.1 p.2).transcribeCalled = false :=
  C2_amended_abort_does_not_stop_queue [(exItem1, exEnv1)]
    (fun p hp => by obtain rfl := List.mem_singleton.mp hp; rfl)

/-- C3: when the abort flag is set at the check made after the download
call returns, the task posts the aborted message and returns without
calling transcribe and without writing a transcript file. -/
theorem C3_abort_skips_transcription (item : VD.DlItem) (env : VD.VEnv)
    (t p : String)
    (hmk : env.makedirs = Except.ok ())
    (hload : (item.audio_only && item.transcribe) = true →
        env.whisperLoad = Except.ok ())
    (hdl : env.download = Except.ok (t, p))
    (habort : env.abortSet = true) :
    Event.message "Download aborted." ∈ (VD.download_video item env).events
  ∧ (VD.download_video item env).transcribeCalled = false
  ∧ (VD.download_video item env).transcriptWritten = none := by
  have key : ∀ (evs0 : List Event) (wl : Bool),
      Event.message "Download aborted." ∈ (VD.afterLoad item env evs0 wl).events
    ∧ (VD.afterLoad item env evs0 wl).transcribeCalled = false
    ∧ (VD.afterLoad item env evs0 wl).transcriptWritten = none := by
    intro evs0 wl
    unfold VD.afterLoad
    rw [hdl]
    simp [habort]
  unfold VD.download_video
  rw [hmk]
  by_cases hb : (item.audio_only && item.transcribe) = true
  · rw [if_pos hb, hload hb]
    exact key _ _
  · rw [if_neg hb]
    exact key [] false

/-- Witness for C3 on a concrete task and oracle run. -/
theorem C3_witness :
    Event.message "Download aborted." ∈ (VD.download_video exItem1 exEnv1).events
  ∧ (VD.download_video exItem1 exEnv1).transcribeCalled = false
  ∧ (VD.download_video exItem1 exEnv1).transcriptWritten = none :=
  C3_abort_skips_transcription exItem1 exEnv1 "T1" "out/T1.mp4"
    rfl (fun _ => rfl) rfl rfl

/-- C1 (failing run): in youtube.py, when the first download fails with a
DownloadError mentioning subtitles and the in-handler retry download fails
too, the retry's exception escapes `download_video` (only the `finally`
runs), so the worker loop dies after the first item: of a two-item queue
only one item is processed and the exception propagates out of the worker,
contradicting the claim that every task failure is caught at the task
boundary and the worker proceeds to the next item. -/
theorem C1_retry_failure_escapes_worker :
    (YT.download_video yItemSubs yEnvRetryFail).propagated
        = some (YT.PyErr.downloadError "network unreachable")
  ∧ (YT.process_download_queue [(yItemSubs, yEnvRetryFail), (yItem2, yEnvOk)]).2.1 = 1
  ∧ (YT.process_download_queue [(yItemSubs, yEnvRetryFail), (yItem2, yEnvOk)]).2.2
        = some (YT.PyErr.downloadError "network unreachable") := by
  refine ⟨?_, ?_, ?_⟩ <;> decide

/-- C4 counterexample: a download request with subtitles enabled whose
download call fails with a non-DownloadError exception whose message
mentions subtitles is not retried at all (retry count 0, not 1): only the
`except DownloadError` clause contains the retry. -/
theorem C4_counterexample :
    yItemSubs.subtitles = true
  ∧ yEnvOtherSubtitleErr.firstDownload
      = Except.error (YT.PyErr.otherError "ValueError: subtitle track missing")
  ∧ strContains "ValueError: subtitle track missing" "subtitle" = true
  ∧ (YT.download_video yItemSubs yEnvOtherSubtitleErr).retryCount = 0 := by
  refine ⟨rfl, rfl, by decide, by decide⟩

/-- C4 amended: with subtitles enabled, a download failure raising a
DownloadError whose message contains "subtitle" is retried exactly once
with the three subtitle options removed from the option dictionary; a
DownloadError whose message does not mention subtitles, or an exception of
any other type, is not retried. -/
theorem C4_amended_retry_semantics (item : YT.YItem) (env : YT.YEnv)
    (msg t : String)
    (hsub : item.subtitles = true)
    (hmk : env.makedirs = Except.ok ())
    (hex : env.extract = Except.ok t) :
    (env.firstDownload = Except.error (YT.PyErr.downloadError msg) →
      strContains msg "subtitle" = true →
        (YT.download_video item env).retryCount = 1
      ∧ (YT.download_video item env).retryOpts
          = some (YT.stripSubtitleOpts (YT.buildOpts item))
      ∧ (YT.stripSubtitleOpts (YT.buildOpts item)).writesubtitles = none
      ∧ (YT.stripSubtitleOpts (YT.buildOpts item)).subtitleslangs = none
      ∧ (YT.stripSubtitleOpts (YT.buildOpts item)).subtitlesformat = none)
  ∧ (env.firstDownload = Except.error (YT.PyErr.downloadError msg) →
      strContains msg "subtitle" = false →
        (YT.download_video item env).retryCount = 0)
  ∧ (env.firstDownload = Except.error (YT.PyErr.otherError msg) →
        (YT.download_video item env).retryCount = 0) := by
  refine ⟨?_, ?_, ?_⟩
  · intro hfd hs
    have e1 : YT.download_video item env
        = YT.handleErr item env (YT.buildOpts item)
            [Event.message ("Downloading: " ++ t)] (YT.PyErr.downloadError msg) := by
      unfold YT.download_video
      rw [hmk, hex, hfd]
    rw [e1]
    dsimp only [YT.handleErr]
    rw [if_pos hs]
    cases hrd : env.retryDownload with
    | error e2 => exact ⟨rfl, rfl, rfl, rfl, rfl⟩
    | ok u =>
      by_cases ha : env.abortAfterRetry = true
      · rw [if_pos ha]
        exact ⟨rfl, rfl, rfl, rfl, rfl⟩
      · rw [if_neg ha]
        exact ⟨rfl, rfl, rfl, rfl, rfl⟩
  · intro hfd hs
    have e1 : YT.download_video item env
        = YT.handleErr item env (YT.buildOpts item)
            [Event.message ("Downloading: " ++ t)] (YT.PyErr.downloadError msg) := by
      unfold YT.download_video
      rw [hmk, hex, hfd]
    rw [e1]
    dsimp only [YT.handleErr]
    rw [if_neg (by simp [hs])]
  · intro hfd
    have e1 : YT.download_video item env
        = YT.handleErr item env (YT.buildOpts item)
            [Event.message ("Downloading: " ++ t)] (YT.PyErr.otherError msg) := by
      unfold YT.download_video
      rw [hmk, hex, hfd]
    rw [e1]
    rfl

/-- Witness for C4's amended statement on a concrete run whose first
download raises a DownloadError mentioning subtitles. -/
theorem C4_witness :
    (YT.download_video yItemSubs yEnvSubErr).retryCount = 1
  ∧ (YT.download_video yItemSubs yEnvSubErr).retryOpts
      = some (YT.stripSubtitleOpts (YT.buildOpts yItemSubs))
  ∧ (YT.stripSubtitleOpts (YT.buildOpts yItemSubs)).writesubtitles = none
  ∧ (YT.stripSubtitleOpts (YT.buildOpts yItemSubs)).subtitleslangs = none
  ∧ (YT.stripSubtitleOpts (YT.buildOpts yItemSubs)).subtitlesformat = none :=
  (C4_amended_retry_semantics yItemSubs yEnvSubErr
      "requested subtitle not available" "T1" rfl rfl rfl).1 rfl (by decide)
